import Mathlib

/-!
Verification development for the DuoCast-AI repository.

Shallow embedding of the two-stage generation pipeline:
- server/services/imageGen.js   (generateScene: retry loop with fixed backoff)
- server/services/videoGen.js   (generateVideo: create retry loop + poll loop)
- server/index.js               (credit ledger: loadCredits / saveCredits, HTTP endpoints)
- src/pipeline/duocast.ts       (processConversation orchestrator)
- src/server.ts                 (processGeneration job-record updates)

Remote HTTP interactions are modelled by an environment function giving, for
each attempt index, the outcome of that network round-trip (an HTTP response
with status, raw body text and a JSON parse result, or a thrown network
error carrying its message).  Machine integers are Nat/Int.  Wall-clock time
in the poll loop is modelled by an explicit elapsed counter advanced by the
fixed sleep interval plus a per-iteration extra duration.
-/

namespace DuoCast

/-! ### Generic string helpers

The JavaScript code classifies caught errors by substring matching on the
error message (String.prototype.includes).  leadMatch checks that pat is an
initial segment of l; hasSeg checks that pat occurs as a contiguous segment
anywhere in l; strContains is the String version. -/

def leadMatch : List Char → List Char → Bool
  | [], _ => true
  | _ :: _, [] => false
  | p :: ps, c :: cs => p == c && leadMatch ps cs

def hasSeg (l pat : List Char) : Bool :=
  match l with
  | [] => leadMatch pat []
  | _ :: rest => leadMatch pat l || hasSeg rest pat

def strContains (s pat : String) : Bool :=
  hasSeg s.data pat.data

/-- JavaScript string truthiness: undefined/absent and the empty string are
falsy; any other string is truthy. -/
def jsStr : Option String → Option String
  | none => none
  | some s => if s.isEmpty then none else some s

/-- JavaScript x || 0 on an optional number field (credits_used): absent
gives 0, and 0 gives 0, so Option.getD matches exactly. -/
def jsNat (o : Option Nat) : Nat :=
  o.getD 0

instance exceptDecEq {ε α : Type} [DecidableEq ε] [DecidableEq α] :
    DecidableEq (Except ε α) := fun x y =>
  match x, y with
  | Except.error a, Except.error b =>
    if h : a = b then isTrue (by rw [h])
    else isFalse (by intro hh; cases hh; exact h rfl)
  | Except.error _, Except.ok _ => isFalse (by intro hh; cases hh)
  | Except.ok _, Except.error _ => isFalse (by intro hh; cases hh)
  | Except.ok a, Except.ok b =>
    if h : a = b then isTrue (by rw [h])
    else isFalse (by intro hh; cases hh; exact h rfl)

/-- fetch Response.ok: status in the inclusive range 200-299. -/
def okStatus (status : Nat) : Prop :=
  200 ≤ status ∧ status ≤ 299

instance (status : Nat) : Decidable (okStatus status) := by
  unfold okStatus; infer_instance

/-! ### The shared retry/backoff pattern

Both generateScene (imageGen.js) and step 1 of generateVideo (videoGen.js)
run the same loop:

  for (attempt = 0; attempt <= MAX_RETRIES; attempt++) {
    if (attempt > 0) await sleep(RETRY_DELAYS[attempt - 1] || 30000);
    ... one attempt: success / transient (continue, lastError = e) /
        permanent (throw) ...
  }
  throw lastError || new Error(default);
-/

def MAX_RETRIES : Nat := 3

def RETRY_DELAYS : List Nat := [5000, 15000, 30000]

/-- Classification of one attempt of the create/generate request, as the
loop body sees it after the catch-block dispatch. -/
inductive AttemptStep (α : Type) where
  | success (a : α)
  | transient (msg : String)
  | permanent (msg : String)
deriving DecidableEq

structure RetryRun (α : Type) where
  attempts : Nat
  delays : List Nat
  outcome : Except String α
deriving DecidableEq

/-- The retry loop.  fuel counts the attempts still allowed (initially
MAX_RETRIES + 1), i is the index of the next attempt, lastErr the last
transient error observed, ds the backoff delays waited so far. -/
def retryGo {α : Type} (step : Nat → AttemptStep α) (defaultMsg : String) :
    Nat → Nat → Option String → List Nat → RetryRun α
  | 0, i, lastErr, ds =>
    { attempts := i, delays := ds, outcome := Except.error (lastErr.getD defaultMsg) }
  | fuel + 1, i, _lastErr, ds =>
    let ds2 := if 0 < i then ds ++ [RETRY_DELAYS.getD (i - 1) 30000] else ds
    match step i with
    | AttemptStep.success a =>
      { attempts := i + 1, delays := ds2, outcome := Except.ok a }
    | AttemptStep.permanent msg =>
      { attempts := i + 1, delays := ds2, outcome := Except.error msg }
    | AttemptStep.transient msg =>
      retryGo step defaultMsg fuel (i + 1) (some msg) ds2

/-! ### imageGen.js: generateScene -/

/-- Parsed JSON body of a scene-generation response.  dataFirst models
data.data[0] (with its url and b64_json fields), imagesFirst models
data.images[0] (with its url field), topUrl models data.url, creditsUsed
models data.meta?.usage?.credits_used. -/
structure SceneData where
  dataFirst : Option (Option String × Option String)
  imagesFirst : Option (Option String)
  topUrl : Option String
  creditsUsed : Option Nat
deriving DecidableEq

/-- One network round-trip outcome for the scene request: an HTTP response
(status, body text, JSON parse result) or a thrown network error. -/
inductive SceneAttempt where
  | response (status : Nat) (text : String) (json : Except String SceneData)
  | netError (msg : String)
deriving DecidableEq

/-- Response-shape sniffing of imageGen.js lines 71-79 followed by the
falsy check of line 81: data.data[0] first (url || b64_json), then
images[0].url, then data.url; an empty-string result is falsy and counts
as missing. -/
def extractSceneImageUrl (d : SceneData) : Option String :=
  let raw : Option String :=
    match d.dataFirst with
    | some e =>
      match jsStr e.1 with
      | some u => some u
      | none => e.2
    | none =>
      match d.imagesFirst with
      | some u => u
      | none =>
        match jsStr d.topUrl with
        | some u => some u
        | none => none
  jsStr raw

/-- One iteration of the generateScene loop body (imageGen.js lines 45-98):
5xx records a transient server error and continues; a non-ok status throws
the NanoBanana API error message, which the catch block rethrows as
permanent exactly when it contains "API error (4"; a JSON parse failure or
a missing image URL throws a message that goes through the same catch
classification; otherwise the attempt succeeds with the extracted URL and
credits. -/
def sceneAttemptStep (a : SceneAttempt) : AttemptStep (String × Nat) :=
  match a with
  | SceneAttempt.netError msg =>
    if strContains msg "API error (4" = true then AttemptStep.permanent msg
    else AttemptStep.transient msg
  | SceneAttempt.response status text json =>
    if 500 ≤ status then
      AttemptStep.transient ("NanoBanana API error (" ++ toString status ++ "): Server error")
    else if ¬ okStatus status then
      let msg := "NanoBanana API error (" ++ toString status ++ "): " ++ text
      if strContains msg "API error (4" = true then AttemptStep.permanent msg
      else AttemptStep.transient msg
    else
      match json with
      | Except.error pmsg =>
        if strContains pmsg "API error (4" = true then AttemptStep.permanent pmsg
        else AttemptStep.transient pmsg
      | Except.ok d =>
        match extractSceneImageUrl d with
        | some url => AttemptStep.success (url, jsNat d.creditsUsed)
        | none =>
          let msg := "No image URL found in API response"
          if strContains msg "API error (4" = true then AttemptStep.permanent msg
          else AttemptStep.transient msg

/-- generateScene as a function of the per-attempt network environment. -/
def generateSceneRun (env : Nat → SceneAttempt) : RetryRun (String × Nat) :=
  retryGo (fun i => sceneAttemptStep (env i)) "Scene generation failed after retries"
    (MAX_RETRIES + 1) 0 none []

/-- A transient attempt in the sense of the spec: an HTTP status at or
above 500, or a thrown network error (whose message does not accidentally
match the client-error pattern the catch block looks for). -/
def sceneTransientAttempt : SceneAttempt → Bool
  | SceneAttempt.netError msg => !(strContains msg "API error (4")
  | SceneAttempt.response status _ _ => decide (500 ≤ status)

/-- The error message generateScene records for a transient attempt. -/
def sceneTransientMsg : SceneAttempt → String
  | SceneAttempt.netError msg => msg
  | SceneAttempt.response status _ _ =>
    "NanoBanana API error (" ++ toString status ++ "): Server error"

/-! ### videoGen.js step 1: the create-task retry loop -/

/-- Parsed JSON body of the video create response: createData.id. -/
structure CreateData where
  id : Option String
deriving DecidableEq

inductive CreateAttempt where
  | response (status : Nat) (text : String) (json : Except String CreateData)
  | netError (msg : String)
deriving DecidableEq

/-- One iteration of the video create loop body (videoGen.js lines 43-82):
5xx records a transient create error and continues; a non-ok status throws
the Veo create error message, rethrown as permanent exactly when it
contains "error (4"; a missing (or empty, hence falsy) generation id throws
a message that goes through the same catch classification; otherwise the
attempt succeeds with the generation id. -/
def createAttemptStep (a : CreateAttempt) : AttemptStep String :=
  match a with
  | CreateAttempt.netError msg =>
    if strContains msg "error (4" = true then AttemptStep.permanent msg
    else AttemptStep.transient msg
  | CreateAttempt.response status text json =>
    if 500 ≤ status then
      AttemptStep.transient ("Veo 3.1 create error (" ++ toString status ++ "): Server error")
    else if ¬ okStatus status then
      let msg := "Veo 3.1 create error (" ++ toString status ++ "): " ++ text
      if strContains msg "error (4" = true then AttemptStep.permanent msg
      else AttemptStep.transient msg
    else
      match json with
      | Except.error pmsg =>
        if strContains pmsg "error (4" = true then AttemptStep.permanent pmsg
        else AttemptStep.transient pmsg
      | Except.ok d =>
        match jsStr d.id with
        | some gid => AttemptStep.success gid
        | none =>
          let msg := "No generation ID received from Veo 3.1 API"
          if strContains msg "error (4" = true then AttemptStep.permanent msg
          else AttemptStep.transient msg

/-- Step 1 of generateVideo as a function of the per-attempt network
environment. -/
def videoCreateRun (env : Nat → CreateAttempt) : RetryRun String :=
  retryGo (fun i => createAttemptStep (env i)) "Video creation failed after retries"
    (MAX_RETRIES + 1) 0 none []

def createTransientAttempt : CreateAttempt → Bool
  | CreateAttempt.netError msg => !(strContains msg "error (4")
  | CreateAttempt.response status _ _ => decide (500 ≤ status)

def createTransientMsg : CreateAttempt → String
  | CreateAttempt.netError msg => msg
  | CreateAttempt.response status _ _ =>
    "Veo 3.1 create error (" ++ toString status ++ "): Server error"

/-! ### videoGen.js step 2: the polling loop -/

def POLL_INTERVAL_MS : Nat := 10000

def TIMEOUT_MS : Nat := 5 * 60 * 1000

def timeoutMsg : String :=
  "Video generation timed out after " ++ toString (TIMEOUT_MS / 1000) ++ "s"

/-- Parsed JSON body of a poll response: pollData.status, pollData.video?.url,
pollData.meta?.usage?.credits_used, pollData.error?.message. -/
structure PollData where
  status : Option String
  videoUrl : Option String
  creditsUsed : Option Nat
  errorMessage : Option String
deriving DecidableEq

inductive PollOutcome where
  | response (status : Nat) (text : String) (json : Except String PollData)
  | netError (msg : String)
deriving DecidableEq

/-- What one loop iteration decides: keep polling with the new
consecutive-error counter, or leave the loop with a final outcome
(success value or propagated error). -/
inductive PollStep where
  | cont (c : Nat)
  | halt (r : Except String (String × Nat))
deriving DecidableEq

/-- The catch block of the poll loop (videoGen.js lines 146-156): rethrow
non-transient poll errors (message contains "poll error" but not
"server errors"), rethrow business errors (message contains "failed" or
"completed"), otherwise count the failure as transient and abort once the
consecutive counter reaches 5. -/
def pollCatch (msg : String) (c : Nat) : PollStep :=
  if strContains msg "poll error" = true ∧ strContains msg "server errors" = false then
    PollStep.halt (Except.error msg)
  else if strContains msg "failed" = true ∨ strContains msg "completed" = true then
    PollStep.halt (Except.error msg)
  else if 5 ≤ c + 1 then PollStep.halt (Except.error msg)
  else PollStep.cont (c + 1)

/-- One iteration of the poll loop body (videoGen.js lines 98-156), given
the outcome of the poll request of this iteration and the current
consecutive-error counter.  A 5xx increments the counter and continues
unless it reaches 5, in which case the thrown exhaustion message goes
through the catch block (whose "failed" test rethrows it); a non-ok status
throws the poll error message into the catch block; on an ok response the
counter resets to 0 before the JSON is parsed, a completed status returns
the video URL (or throws if the URL is missing), a failed/error status
throws the business failure, and any other status keeps polling. -/
def stepPoll (a : PollOutcome) (c : Nat) : PollStep :=
  match a with
  | PollOutcome.netError msg => pollCatch msg c
  | PollOutcome.response status text json =>
    if 500 ≤ status then
      if 5 ≤ c + 1 then
        pollCatch "Veo 3.1 polling failed after 5 consecutive server errors" (c + 1)
      else PollStep.cont (c + 1)
    else if ¬ okStatus status then
      pollCatch ("Veo 3.1 poll error (" ++ toString status ++ "): " ++ text) c
    else
      match json with
      | Except.error pmsg => pollCatch pmsg 0
      | Except.ok d =>
        match d.status with
        | some s =>
          if s = "completed" then
            match jsStr d.videoUrl with
            | some url => PollStep.halt (Except.ok (url, jsNat d.creditsUsed))
            | none => pollCatch "Video completed but no URL found in response" 0
          else if s = "failed" ∨ s = "error" then
            pollCatch ("Video generation failed: " ++ (jsStr d.errorMessage).getD "Unknown error") 0
          else PollStep.cont 0
        | none => PollStep.cont 0

structure PollRun where
  outcome : Except String (String × Nat)
  polls : Nat
deriving DecidableEq

/-- The poll loop: while (elapsed < TIMEOUT_MS) sleep POLL_INTERVAL_MS,
poll, dispatch.  env i is the outcome of the i-th poll request, dur i the
extra wall-clock time that request itself takes, elapsed the time since
polling started and i the number of polls performed so far.  fuel is only
a structural-recursion bound: every iteration advances elapsed by at least
POLL_INTERVAL_MS, so from the entry point (fuel 31, elapsed 0) the fuel can
never run out before the while-guard stops the loop (pollGo_fuel_irrel
below makes this precise); the fuel-exhaustion branch therefore returns the
same timeout error as the guard. -/
def pollGo (env : Nat → PollOutcome) (dur : Nat → Nat) :
    Nat → Nat → Nat → Nat → PollRun
  | 0, i, _, _ => { outcome := Except.error timeoutMsg, polls := i }
  | fuel + 1, i, elapsed, c =>
    if elapsed < TIMEOUT_MS then
      match stepPoll (env i) c with
      | PollStep.halt r => { outcome := r, polls := i + 1 }
      | PollStep.cont c2 =>
        pollGo env dur fuel (i + 1) (elapsed + POLL_INTERVAL_MS + dur i) c2
    else { outcome := Except.error timeoutMsg, polls := i }

/-- Step 2 of generateVideo: polling from a fresh start (elapsed 0,
consecutive-error counter 0). -/
def pollPhase (env : Nat → PollOutcome) (dur : Nat → Nat) : PollRun :=
  pollGo env dur 31 0 0 0

/-- A poll outcome that reports neither terminal state: an ok response whose
parsed status is not completed/failed/error (or absent). -/
def isNonTerminalPoll : PollOutcome → Bool
  | PollOutcome.response status _ (Except.ok d) =>
    decide (okStatus status) &&
      (match d.status with
       | some s => !(s == "completed" || s == "failed" || s == "error")
       | none => true)
  | _ => false

/-- A thrown error message that the poll catch block counts toward the
consecutive-failure tolerance instead of rethrowing immediately: it avoids
all the reserved substrings the catch block tests (the combination
"poll error" without "server errors", and the words "failed" and
"completed"). -/
def pollMsgCounted (msg : String) : Prop :=
  ¬ (strContains msg "poll error" = true ∧ strContains msg "server errors" = false) ∧
  strContains msg "failed" = false ∧
  strContains msg "completed" = false

instance (msg : String) : Decidable (pollMsgCounted msg) := by
  unfold pollMsgCounted; infer_instance

/-! ### server/index.js: credit ledger and endpoints -/

def STARTING_CREDITS : Nat := 20000000

/-- The record saveCredits writes to credits.json (server/index.js lines
281-289).  creditsRemaining is a plain JS subtraction, so it is an Int. -/
structure CreditsFileRecord where
  startingCredits : Nat
  creditsUsed : Nat
  creditsRemaining : Int
  lastUpdated : String
deriving DecidableEq

def saveCredits (creditsUsedTotal : Nat) (now : String) : CreditsFileRecord :=
  { startingCredits := STARTING_CREDITS,
    creditsUsed := creditsUsedTotal,
    creditsRemaining := (STARTING_CREDITS : Int) - (creditsUsedTotal : Int),
    lastUpdated := now }

/-- Contents of the credits.json store as loadCredits sees them: a record
as written by saveCredits, a JSON document lacking the creditsUsed field,
or an unparsable file (JSON.parse throws). -/
inductive StoreState where
  | record (r : CreditsFileRecord)
  | noField (raw : String)
  | corrupt (raw : String)
deriving DecidableEq

/-- loadCredits (server/index.js lines 269-279): a missing file or a read/
parse exception yields 0; otherwise data.creditsUsed || 0 (identical to the
field itself on Nat). -/
def loadCredits : Option StoreState → Nat
  | none => 0
  | some (StoreState.corrupt _) => 0
  | some (StoreState.noField _) => 0
  | some (StoreState.record r) => r.creditsUsed

/-- The charge-and-persist pattern of both generation endpoints:
creditsUsedTotal += c; saveCredits(). -/
def chargeAndSave (total c : Nat) (now : String) : Nat × StoreState :=
  (total + c, StoreState.record (saveCredits (total + c) now))

/-- GET /api/credits response (server/index.js lines 411-417). -/
structure CreditsApiResponse where
  startingCredits : Nat
  creditsUsed : Nat
  creditsRemaining : Int
deriving DecidableEq

def apiCredits (creditsUsedTotal : Nat) : CreditsApiResponse :=
  { startingCredits := STARTING_CREDITS,
    creditsUsed := creditsUsedTotal,
    creditsRemaining := (STARTING_CREDITS : Int) - (creditsUsedTotal : Int) }

structure SceneApiResponse where
  success : Bool
  imageUrl : String
  creditsUsed : Nat
  creditsRemaining : Int
deriving DecidableEq

/-- Post-generation bookkeeping of POST /api/generate-scene (server/index.js
lines 344-355): if (result.creditsUsed) is JS number truthiness, so a zero
charge performs no ledger update and no file write (the Option is the file
write, none meaning the store is untouched).  The response always reports
success and the current remaining balance. -/
def sceneEndpointSuccess (total : Nat) (imageUrl : String) (creditsUsed : Nat)
    (now : String) : (Nat × Option StoreState) × SceneApiResponse :=
  if creditsUsed ≠ 0 then
    let t := total + creditsUsed
    ((t, some (StoreState.record (saveCredits t now))),
     { success := true, imageUrl := imageUrl, creditsUsed := creditsUsed,
       creditsRemaining := (STARTING_CREDITS : Int) - (t : Int) })
  else
    ((total, none),
     { success := true, imageUrl := imageUrl, creditsUsed := creditsUsed,
       creditsRemaining := (STARTING_CREDITS : Int) - (total : Int) })

structure VideoApiResponse where
  success : Bool
  videoUrl : String
  generationId : String
  creditsUsed : Nat
  creditsRemaining : Int
deriving DecidableEq

/-- Post-generation bookkeeping of POST /api/generate-video (server/index.js
lines 391-403), same shape as the scene endpoint. -/
def videoEndpointSuccess (total : Nat) (videoUrl generationId : String)
    (creditsUsed : Nat) (now : String) : (Nat × Option StoreState) × VideoApiResponse :=
  if creditsUsed ≠ 0 then
    let t := total + creditsUsed
    ((t, some (StoreState.record (saveCredits t now))),
     { success := true, videoUrl := videoUrl, generationId := generationId,
       creditsUsed := creditsUsed,
       creditsRemaining := (STARTING_CREDITS : Int) - (t : Int) })
  else
    ((total, none),
     { success := true, videoUrl := videoUrl, generationId := generationId,
       creditsUsed := creditsUsed,
       creditsRemaining := (STARTING_CREDITS : Int) - (total : Int) })

/-! ### src/pipeline/duocast.ts: processConversation, and src/server.ts:
processGeneration -/

/-- PipelineResult of duocast.ts (wall-clock timing fields elided: they are
real-time measurements with no bearing on the claims below). -/
structure PipelineResult where
  success : Bool
  videoPath : Option String
  scenePath : Option String
  error : Option String
deriving DecidableEq

/-- processConversation (duocast.ts lines 82-209) as a function of the
validation outcome and the two stage outcomes.  On the success path the
scene image is saved (and its path included) unless saveIntermediate is
false; the catch block (lines 195-208) returns success := false with only
the error message and timing — it includes neither videoPath nor scenePath. -/
def processConversation (validation : Except String Unit)
    (sceneOutcome : Except String String) (videoOutcome : Except String String)
    (saveIntermediate : Bool) (scenePath : String) : PipelineResult :=
  match validation with
  | Except.error m =>
    { success := false, videoPath := none, scenePath := none, error := some m }
  | Except.ok _ =>
    match sceneOutcome with
    | Except.error m =>
      { success := false, videoPath := none, scenePath := none, error := some m }
    | Except.ok _ =>
      let savedScenePath : Option String :=
        if saveIntermediate then some scenePath else none
      match videoOutcome with
      | Except.error m =>
        { success := false, videoPath := none, scenePath := none, error := some m }
      | Except.ok vp =>
        { success := true, videoPath := some vp, scenePath := savedScenePath,
          error := none }

/-- The job record kept in the generations map of src/server.ts.  Absent
fields are none: every update replaces the whole record, so a field not in
the extra object of the update disappears. -/
structure GenerationRecord where
  status : String
  progress : String
  scenePath : Option String
  videoPath : Option String
  error : Option String
deriving DecidableEq

/-- Terminal job record of processGeneration (src/server.ts lines 218-349)
as a function of the two stage outcomes.  The catch block runs
update with status error and only the error message in extra, so the record
it stores carries no scenePath even when stage 1 had succeeded (the
intermediate video-stage update call had already replaced the record that carried it). -/
def processGeneration (id : String) (sceneOutcome : Except String String)
    (videoOutcome : Except String String) : GenerationRecord :=
  match sceneOutcome with
  | Except.error m =>
    { status := "error", progress := "Generation failed",
      scenePath := none, videoPath := none, error := some m }
  | Except.ok _ =>
    match videoOutcome with
    | Except.error m =>
      { status := "error", progress := "Generation failed",
        scenePath := none, videoPath := none, error := some m }
    | Except.ok _ =>
      { status := "complete", progress := "Generation complete!",
        scenePath := some ("/output/scene_" ++ id ++ ".png"),
        videoPath := some ("/output/video_" ++ id ++ ".mp4"),
        error := none }

/-! ### Concrete environments used by witnesses and counterexamples -/

def wSceneTransientEnv : Nat → SceneAttempt :=
  fun _ => SceneAttempt.response 502 "Bad gateway" (Except.error "Unexpected token <")

def wCreateTransientEnv : Nat → CreateAttempt :=
  fun _ => CreateAttempt.response 503 "upstream overloaded" (Except.error "Unexpected token <")

def wScene404Env : Nat → SceneAttempt :=
  fun _ => SceneAttempt.response 404 "Not Found" (Except.error "nf")

def wCreate400Env : Nat → CreateAttempt :=
  fun _ => CreateAttempt.response 400 "Bad Request" (Except.error "br")

def generatingPollData : PollData :=
  { status := some "generating", videoUrl := none, creditsUsed := none,
    errorMessage := none }

def wGeneratingPoll : PollOutcome :=
  PollOutcome.response 200 "" (Except.ok generatingPollData)

def wGeneratingEnv : Nat → PollOutcome := fun _ => wGeneratingPoll

def zeroDur : Nat → Nat := fun _ => 0

def w503Poll : PollOutcome :=
  PollOutcome.response 503 "upstream overloaded" (Except.error "html body")

/-- Five consecutive server-error polls, then healthy non-terminal polls
forever. -/
def c2PollEnv : Nat → PollOutcome :=
  fun i => if i < 5 then w503Poll else wGeneratingPoll

def completedPollData : PollData :=
  { status := some "completed", videoUrl := some "https://example/video.mp4",
    creditsUsed := some 250, errorMessage := none }

def wCompletedEnv : Nat → PollOutcome :=
  fun _ => PollOutcome.response 200 "" (Except.ok completedPollData)

def failedPollData : PollData :=
  { status := some "failed", videoUrl := none, creditsUsed := none,
    errorMessage := some "Quota exceeded" }

def wFailedEnv : Nat → PollOutcome :=
  fun _ => PollOutcome.response 200 "" (Except.ok failedPollData)

/-! ### Helper lemmas -/

theorem leadMatch_app (p l b : List Char) (h : leadMatch p l = true) :
    leadMatch p (l ++ b) = true := by
  induction p generalizing l with
  | nil => rfl
  | cons x xs ih =>
    cases l with
    | nil => simp [leadMatch] at h
    | cons y ys =>
      rw [List.cons_append]
      simp only [leadMatch, Bool.and_eq_true] at h ⊢
      exact ⟨h.1, ih ys h.2⟩

theorem hasSeg_app (a b pat : List Char) (h : hasSeg a pat = true) :
    hasSeg (a ++ b) pat = true := by
  induction a with
  | nil =>
    cases pat with
    | nil =>
      cases b with
      | nil => rfl
      | cons c cs => simp [hasSeg, leadMatch]
    | cons p ps => simp [hasSeg, leadMatch] at h
  | cons x xs ih =>
    rw [List.cons_append]
    simp only [hasSeg, Bool.or_eq_true] at h ⊢
    cases h with
    | inl h1 =>
      have h2 := leadMatch_app pat (x :: xs) b h1
      rw [List.cons_append] at h2
      exact Or.inl h2
    | inr h2 => exact Or.inr (ih h2)

theorem strContains_app (a b pat : String) (h : strContains a pat = true) :
    strContains (a ++ b) pat = true := by
  unfold strContains at h ⊢
  rw [String.data_append]
  exact hasSeg_app _ _ _ h

set_option maxRecDepth 100000 in
theorem scenePattern4 : ∀ r, r < 100 →
    strContains ("NanoBanana API error (" ++ toString (400 + r)) "API error (4" = true := by
  decide

set_option maxRecDepth 100000 in
theorem createPattern4 : ∀ r, r < 100 →
    strContains ("Veo 3.1 create error (" ++ toString (400 + r)) "error (4" = true := by
  decide

theorem sceneStep_transient {a : SceneAttempt} (h : sceneTransientAttempt a = true) :
    sceneAttemptStep a = AttemptStep.transient (sceneTransientMsg a) := by
  cases a with
  | netError msg =>
    simp only [sceneTransientAttempt, Bool.not_eq_eq_eq_not, Bool.not_true] at h
    simp [sceneAttemptStep, sceneTransientMsg, h]
  | response status text json =>
    simp only [sceneTransientAttempt, decide_eq_true_eq] at h
    simp [sceneAttemptStep, sceneTransientMsg, h]

theorem createStep_transient {a : CreateAttempt} (h : createTransientAttempt a = true) :
    createAttemptStep a = AttemptStep.transient (createTransientMsg a) := by
  cases a with
  | netError msg =>
    simp only [createTransientAttempt, Bool.not_eq_eq_eq_not, Bool.not_true] at h
    simp [createAttemptStep, createTransientMsg, h]
  | response status text json =>
    simp only [createTransientAttempt, decide_eq_true_eq] at h
    simp [createAttemptStep, createTransientMsg, h]

theorem sceneStep_clientError (s : Nat) (t : String) (j : Except String SceneData)
    (h1 : 400 ≤ s) (h2 : s ≤ 499) :
    sceneAttemptStep (SceneAttempt.response s t j) =
      AttemptStep.permanent ("NanoBanana API error (" ++ toString s ++ "): " ++ t) := by
  obtain ⟨r, hr, rfl⟩ : ∃ r, r < 100 ∧ s = 400 + r := ⟨s - 400, by omega, by omega⟩
  have hne : ¬ 500 ≤ 400 + r := by omega
  have hok : ¬ okStatus (400 + r) := by unfold okStatus; omega
  have hpat : strContains ("NanoBanana API error (" ++ toString (400 + r))
      "API error (4" = true := scenePattern4 r hr
  have hmsg : strContains ("NanoBanana API error (" ++ toString (400 + r) ++ "): " ++ t)
      "API error (4" = true :=
    strContains_app _ _ _ (strContains_app _ _ _ hpat)
  simp [sceneAttemptStep, hne, hok, hmsg]

theorem createStep_clientError (s : Nat) (t : String) (j : Except String CreateData)
    (h1 : 400 ≤ s) (h2 : s ≤ 499) :
    createAttemptStep (CreateAttempt.response s t j) =
      AttemptStep.permanent ("Veo 3.1 create error (" ++ toString s ++ "): " ++ t) := by
  obtain ⟨r, hr, rfl⟩ : ∃ r, r < 100 ∧ s = 400 + r := ⟨s - 400, by omega, by omega⟩
  have hne : ¬ 500 ≤ 400 + r := by omega
  have hok : ¬ okStatus (400 + r) := by unfold okStatus; omega
  have hpat : strContains ("Veo 3.1 create error (" ++ toString (400 + r))
      "error (4" = true := createPattern4 r hr
  have hmsg : strContains ("Veo 3.1 create error (" ++ toString (400 + r) ++ "): " ++ t)
      "error (4" = true :=
    strContains_app _ _ _ (strContains_app _ _ _ hpat)
  simp [createAttemptStep, hne, hok, hmsg]

theorem retryGo_allTransient {α : Type} (step : Nat → AttemptStep α)
    (msgs : Nat → String) (dmsg : String)
    (h : ∀ i, i ≤ 3 → step i = AttemptStep.transient (msgs i)) :
    retryGo step dmsg 4 0 none [] =
      { attempts := 4, delays := [5000, 15000, 30000],
        outcome := Except.error (msgs 3) } := by
  have h0 := h 0 (by omega)
  have h1 := h 1 (by omega)
  have h2 := h 2 (by omega)
  have h3 := h 3 (by omega)
  simp [retryGo, h0, h1, h2, h3, RETRY_DELAYS]

theorem retryGo_firstPermanent {α : Type} (step : Nat → AttemptStep α)
    (dmsg m : String) (h : step 0 = AttemptStep.permanent m) :
    retryGo step dmsg 4 0 none [] =
      { attempts := 1, delays := [], outcome := Except.error m } := by
  simp [retryGo, h]

theorem pollCatch_failed (msg : String) (c : Nat)
    (h : strContains msg "failed" = true) :
    pollCatch msg c = PollStep.halt (Except.error msg) := by
  unfold pollCatch
  by_cases h1 : strContains msg "poll error" = true ∧ strContains msg "server errors" = false
  · rw [if_pos h1]
  · rw [if_neg h1, if_pos (Or.inl h)]

theorem stepPoll_nonterminal {a : PollOutcome} (h : isNonTerminalPoll a = true)
    (c : Nat) : stepPoll a c = PollStep.cont 0 := by
  cases a with
  | netError msg => simp [isNonTerminalPoll] at h
  | response status text json =>
    cases json with
    | error p => simp [isNonTerminalPoll] at h
    | ok d =>
      simp only [isNonTerminalPoll, Bool.and_eq_true, decide_eq_true_eq] at h
      obtain ⟨hok, hst⟩ := h
      have h5 : ¬ 500 ≤ status := by
        have := hok.2
        omega
      simp only [stepPoll]
      rw [if_neg h5, if_neg (not_not_intro hok)]
      cases hds : d.status with
      | none => rfl
      | some s =>
        rw [hds] at hst
        simp only [Bool.not_eq_eq_eq_not, Bool.not_true, Bool.or_eq_false_iff,
          beq_eq_false_iff_ne, ne_eq] at hst
        obtain ⟨⟨hs1, hs2⟩, hs3⟩ := hst
        simp [hs1, hs2, hs3]

theorem pollGo_timeout (env : Nat → PollOutcome) (dur : Nat → Nat)
    (henv : ∀ j, isNonTerminalPoll (env j) = true) :
    ∀ fuel i elapsed c, (pollGo env dur fuel i elapsed c).outcome =
      Except.error timeoutMsg := by
  intro fuel
  induction fuel with
  | zero => intro i elapsed c; rfl
  | succ n ih =>
    intro i elapsed c
    unfold pollGo
    by_cases hT : elapsed < TIMEOUT_MS
    · rw [if_pos hT, stepPoll_nonterminal (henv i) c]
      exact ih (i + 1) (elapsed + POLL_INTERVAL_MS + dur i) 0
    · rw [if_neg hT]

theorem pollGo_polls_le (env : Nat → PollOutcome) (dur : Nat → Nat) :
    ∀ fuel i elapsed c k, TIMEOUT_MS ≤ elapsed + POLL_INTERVAL_MS * k →
      (pollGo env dur fuel i elapsed c).polls ≤ i + k := by
  intro fuel
  induction fuel with
  | zero =>
    intro i elapsed c k _
    exact Nat.le_add_right i k
  | succ n ih =>
    intro i elapsed c k hk
    have hTM : TIMEOUT_MS = 300000 := rfl
    have hPI : POLL_INTERVAL_MS = 10000 := rfl
    rw [hTM, hPI] at hk
    unfold pollGo
    by_cases hT : elapsed < TIMEOUT_MS
    · rw [if_pos hT]
      rw [hTM] at hT
      have hkpos : 0 < k := by omega
      cases hstep : stepPoll (env i) c with
      | halt r =>
        simp only
        omega
      | cont c2 =>
        simp only
        have hrec := ih (i + 1) (elapsed + POLL_INTERVAL_MS + dur i) c2 (k - 1)
          (by rw [hTM, hPI]; omega)
        omega
    · rw [if_neg hT]
      exact Nat.le_add_right i k

/-- With enough fuel the structural bound in pollGo is irrelevant: any two
fuels that each cover the remaining wall-clock budget give the same result,
so the entry point with fuel 31 behaves as the unbounded while loop. -/
theorem pollGo_fuel_irrel (env : Nat → PollOutcome) (dur : Nat → Nat) :
    ∀ fuel fuel2 i elapsed c,
      TIMEOUT_MS ≤ elapsed + POLL_INTERVAL_MS * fuel →
      TIMEOUT_MS ≤ elapsed + POLL_INTERVAL_MS * fuel2 →
      pollGo env dur fuel i elapsed c = pollGo env dur fuel2 i elapsed c := by
  have hTM : TIMEOUT_MS = 300000 := rfl
  have hPI : POLL_INTERVAL_MS = 10000 := rfl
  intro fuel
  induction fuel with
  | zero =>
    intro fuel2 i elapsed c h1 h2
    cases fuel2 with
    | zero => rfl
    | succ m =>
      unfold pollGo
      rw [if_neg (by rw [hTM, hPI] at h1; rw [hTM]; omega)]
  | succ n ih =>
    intro fuel2 i elapsed c h1 h2
    cases fuel2 with
    | zero =>
      unfold pollGo
      rw [if_neg (by rw [hTM, hPI] at h2; rw [hTM]; omega)]
    | succ m =>
      unfold pollGo
      by_cases hT : elapsed < TIMEOUT_MS
      · rw [if_pos hT, if_pos hT]
        cases hstep : stepPoll (env i) c with
        | halt r => simp only [hstep]
        | cont c2 =>
          simp only [hstep]
          exact ih m (i + 1) (elapsed + POLL_INTERVAL_MS + dur i) c2
            (by rw [hTM, hPI] at h1 ⊢; omega)
            (by rw [hTM, hPI] at h2 ⊢; omega)
      · rw [if_neg hT, if_neg hT]

/-! ### Claim theorems -/

/-- Claim C1: for every scene-stage call (generateScene) and every
video-stage create call (step 1 of generateVideo) in which each attempt
yields a transient failure (HTTP status at or above 500, or a thrown
network error), exactly 4 attempts are made (1 initial plus 3 retries),
the delays before retries 1, 2, 3 are exactly 5s, 15s, 30s, and the error
propagated to the caller is the last observed transient error. -/
theorem claim1_allTransientExhaustsRetries
    (envS : Nat → SceneAttempt) (envC : Nat → CreateAttempt)
    (hS : ∀ i, i ≤ 3 → sceneTransientAttempt (envS i) = true)
    (hC : ∀ i, i ≤ 3 → createTransientAttempt (envC i) = true) :
    generateSceneRun envS =
      { attempts := 4, delays := [5000, 15000, 30000],
        outcome := Except.error (sceneTransientMsg (envS 3)) } ∧
    videoCreateRun envC =
      { attempts := 4, delays := [5000, 15000, 30000],
        outcome := Except.error (createTransientMsg (envC 3)) } := by
  constructor
  · show retryGo (fun i => sceneAttemptStep (envS i))
      "Scene generation failed after retries" 4 0 none [] = _
    exact retryGo_allTransient _ (fun i => sceneTransientMsg (envS i)) _
      (fun i hi => sceneStep_transient (hS i hi))
  · show retryGo (fun i => createAttemptStep (envC i))
      "Video creation failed after retries" 4 0 none [] = _
    exact retryGo_allTransient _ (fun i => createTransientMsg (envC i)) _
      (fun i hi => createStep_transient (hC i hi))

theorem claim1_witness :
    (∀ i, i ≤ 3 → sceneTransientAttempt (wSceneTransientEnv i) = true) ∧
    (∀ i, i ≤ 3 → createTransientAttempt (wCreateTransientEnv i) = true) ∧
    generateSceneRun wSceneTransientEnv =
      { attempts := 4, delays := [5000, 15000, 30000],
        outcome := Except.error "NanoBanana API error (502): Server error" } ∧
    videoCreateRun wCreateTransientEnv =
      { attempts := 4, delays := [5000, 15000, 30000],
        outcome := Except.error "Veo 3.1 create error (503): Server error" } := by
  have h := claim1_allTransientExhaustsRetries wSceneTransientEnv wCreateTransientEnv
    (fun i _ => rfl) (fun i _ => rfl)
  exact ⟨fun i _ => rfl, fun i _ => rfl, h.1, h.2⟩

/-- Claim C2 is refuted on the code: with five consecutive server-error
polls (and healthy polls from then on), the loop does not tolerate the 5th
failure and wait for a 6th; it aborts at the 5th consecutive failure, with
the transient-exhaustion message, after exactly 5 polls. -/
theorem claim2_counterexample :
    pollPhase c2PollEnv zeroDur =
      { outcome := Except.error "Veo 3.1 polling failed after 5 consecutive server errors",
        polls := 5 } := by
  decide

/-- Claim C2 (amended): in the video-stage polling loop, up to 4
consecutive failed poll attempts are tolerated and retried at the same
fixed interval, and any successful poll resets the consecutive-failure
counter to zero; the 5th consecutive failure aborts the whole operation —
with the transient-exhaustion error when the failure is an HTTP 5xx
response, and with the last network error on its own message when it is a
thrown network error.  A thrown network error is counted toward this
tolerance only when its message avoids the reserved substrings the catch
block tests ("poll error" without "server errors", "failed", "completed");
in particular a network error whose message contains "failed" — the
standard node-fetch form "request to ... failed, reason: ..." — is
rethrown immediately, with zero tolerance. -/
theorem claim2_pollTransientTolerance (s : Nat) (tx : String)
    (j : Except String PollData) (msg : String) (c : Nat) (h5 : 500 ≤ s) :
    (c + 1 < 5 → stepPoll (PollOutcome.response s tx j) c = PollStep.cont (c + 1)) ∧
    (c + 1 = 5 → stepPoll (PollOutcome.response s tx j) c =
      PollStep.halt (Except.error "Veo 3.1 polling failed after 5 consecutive server errors")) ∧
    (pollMsgCounted msg → c + 1 < 5 →
      stepPoll (PollOutcome.netError msg) c = PollStep.cont (c + 1)) ∧
    (pollMsgCounted msg → c + 1 = 5 →
      stepPoll (PollOutcome.netError msg) c = PollStep.halt (Except.error msg)) ∧
    (strContains msg "failed" = true →
      stepPoll (PollOutcome.netError msg) c = PollStep.halt (Except.error msg)) ∧
    (∀ a : PollOutcome, isNonTerminalPoll a = true → stepPoll a c = PollStep.cont 0) := by
  refine ⟨?_, ?_, ?_, ?_, ?_, ?_⟩
  · intro hc
    simp only [stepPoll]
    rw [if_pos h5, if_neg (by omega)]
  · intro hc
    simp only [stepPoll]
    rw [if_pos h5, if_pos (by omega)]
    unfold pollCatch
    rw [if_neg (by decide), if_pos (by decide)]
  · intro hm hc
    obtain ⟨h1, h2, h3⟩ := hm
    simp only [stepPoll]
    unfold pollCatch
    rw [if_neg h1, if_neg (by simp [h2, h3]), if_neg (by omega)]
  · intro hm hc
    obtain ⟨h1, h2, h3⟩ := hm
    simp only [stepPoll]
    unfold pollCatch
    rw [if_neg h1, if_neg (by simp [h2, h3]), if_pos (by omega)]
  · intro hf
    simp only [stepPoll]
    exact pollCatch_failed msg c hf
  · intro a ha
    exact stepPoll_nonterminal ha c

theorem claim2_witness :
    (3 : Nat) + 1 < 5 ∧
    stepPoll (PollOutcome.response 503 "overloaded" (Except.error "html")) 3 =
      PollStep.cont 4 ∧
    stepPoll (PollOutcome.response 503 "overloaded" (Except.error "html")) 4 =
      PollStep.halt (Except.error "Veo 3.1 polling failed after 5 consecutive server errors") ∧
    pollMsgCounted "ECONNRESET" ∧
    stepPoll (PollOutcome.netError "ECONNRESET") 2 = PollStep.cont 3 ∧
    stepPoll (PollOutcome.netError "ECONNRESET") 4 =
      PollStep.halt (Except.error "ECONNRESET") ∧
    strContains "request to https://api.aimlapi.com/v2/video/generations failed, reason: socket hang up"
      "failed" = true ∧
    stepPoll (PollOutcome.netError
        "request to https://api.aimlapi.com/v2/video/generations failed, reason: socket hang up") 0 =
      PollStep.halt (Except.error
        "request to https://api.aimlapi.com/v2/video/generations failed, reason: socket hang up") ∧
    stepPoll wGeneratingPoll 7 = PollStep.cont 0 := by
  refine ⟨by decide, ?_, ?_, by decide, ?_, ?_, by decide, ?_, ?_⟩
  · exact (claim2_pollTransientTolerance 503 "overloaded" (Except.error "html") "m" 3
      (by decide)).1 (by decide)
  · exact (claim2_pollTransientTolerance 503 "overloaded" (Except.error "html") "m" 4
      (by decide)).2.1 (by decide)
  · exact (claim2_pollTransientTolerance 503 "overloaded" (Except.error "html")
      "ECONNRESET" 2 (by decide)).2.2.1 (by decide) (by decide)
  · exact (claim2_pollTransientTolerance 503 "overloaded" (Except.error "html")
      "ECONNRESET" 4 (by decide)).2.2.2.1 (by decide) (by decide)
  · exact (claim2_pollTransientTolerance 503 "overloaded" (Except.error "html")
      "request to https://api.aimlapi.com/v2/video/generations failed, reason: socket hang up" 0
      (by decide)).2.2.2.2.1 (by decide)
  · exact (claim2_pollTransientTolerance 503 "overloaded" (Except.error "html") "m" 7
      (by decide)).2.2.2.2.2 wGeneratingPoll rfl

/-- Claim C3 is refuted on the code: consuming past the 20,000,000 starting
balance is reachable (a single successful scene call reporting 20,000,001
credits), and then the credits endpoint, the generation success response
and the persisted record all present a negative remaining value. -/
theorem claim3_counterexample :
    (sceneEndpointSuccess 0 "https://img" 20000001 "t0").1.1 = 20000001 ∧
    ((sceneEndpointSuccess 0 "https://img" 20000001 "t0").2).creditsRemaining = -1 ∧
    (apiCredits 20000001).creditsRemaining = -1 ∧
    (saveCredits 20000001 "t0").creditsRemaining = -1 ∧
    ((videoEndpointSuccess 20000000 "https://v" "gid" 1 "t1").2).creditsRemaining = -1 := by
  decide

/-- Claim C3 (amended): every caller-visible remaining-credits value — the
GET credits endpoint, the generation success responses, and the persisted
record — is the unclamped difference startingBalance - consumedTotal; it is
nonnegative exactly when consumedTotal does not exceed the starting
balance, and negative as soon as consumption exceeds it. -/
theorem claim3_remainingUnclamped (t cu : Nat) (img vid gid now : String) :
    (apiCredits t).creditsRemaining = (STARTING_CREDITS : Int) - (t : Int) ∧
    (saveCredits t now).creditsRemaining = (STARTING_CREDITS : Int) - (t : Int) ∧
    ((0 : Int) ≤ (apiCredits t).creditsRemaining ↔ t ≤ STARTING_CREDITS) ∧
    ((sceneEndpointSuccess t img cu now).2).creditsRemaining =
      (STARTING_CREDITS : Int) - (((sceneEndpointSuccess t img cu now).1.1 : Nat) : Int) ∧
    ((videoEndpointSuccess t vid gid cu now).2).creditsRemaining =
      (STARTING_CREDITS : Int) - (((videoEndpointSuccess t vid gid cu now).1.1 : Nat) : Int) := by
  refine ⟨rfl, rfl, ?_, ?_, ?_⟩
  · unfold apiCredits STARTING_CREDITS
    simp only
    omega
  · by_cases h : cu = 0 <;> simp [sceneEndpointSuccess, h]
  · by_cases h : cu = 0 <;> simp [videoEndpointSuccess, h]

/-- Claim C4 is refuted on the code: when the scene stage succeeds and the
video stage fails, both the duocast.ts pipeline result and the src/server.ts
job record end in the error state but contain no composite-image
reference — the scene artifact is dropped from the caller-visible result,
not preserved. -/
theorem claim4_counterexample :
    (processConversation (Except.ok ()) (Except.ok "scene-image-data")
        (Except.error "Video generation failed: boom") true "output/scene_1.png").success
      = false ∧
    (processConversation (Except.ok ()) (Except.ok "scene-image-data")
        (Except.error "Video generation failed: boom") true "output/scene_1.png").scenePath
      = none ∧
    (processGeneration "1" (Except.ok "scenedata") (Except.error "boom")).status
      = "error" ∧
    (processGeneration "1" (Except.ok "scenedata") (Except.error "boom")).scenePath
      = none := by
  decide

/-- Claim C4 (amended): for every pipeline run in which the scene stage
succeeds and the video stage fails, the run terminates in the error state
with the originating message attached, but the already-produced
composite-image reference is omitted from the result returned to the
caller (only the success result carries it). -/
theorem claim4_videoFailureDropsSceneRef (sceneData msg sp id : String) (si : Bool) :
    processConversation (Except.ok ()) (Except.ok sceneData) (Except.error msg) si sp =
      { success := false, videoPath := none, scenePath := none, error := some msg } ∧
    processGeneration id (Except.ok sceneData) (Except.error msg) =
      { status := "error", progress := "Generation failed", scenePath := none,
        videoPath := none, error := some msg } := by
  exact ⟨rfl, rfl⟩

/-- Claim C5: ledger persistence round-trips — after charging a positive
amount c on top of a prior total t and persisting, reloading from the
persisted store yields t + c; and loading from a missing, unparsable, or
field-less store yields zero consumed without failing. -/
theorem claim5_ledgerRoundTrip (t c : Nat) (now : String) (hc : 0 < c) :
    loadCredits (some (chargeAndSave t c now).2) = t + c ∧
    (chargeAndSave t c now).1 = t + c ∧
    loadCredits none = 0 ∧
    (∀ raw, loadCredits (some (StoreState.corrupt raw)) = 0) ∧
    (∀ raw, loadCredits (some (StoreState.noField raw)) = 0) := by
  exact ⟨rfl, rfl, rfl, fun _ => rfl, fun _ => rfl⟩

theorem claim5_witness :
    (0 : Nat) < 1000 ∧
    loadCredits (some (chargeAndSave 0 1000 "2025-01-01T00:00:00Z").2) = 0 + 1000 :=
  ⟨by decide, (claim5_ledgerRoundTrip 0 1000 "2025-01-01T00:00:00Z" (by decide)).1⟩

/-- Claim C6: if every poll within the wall-clock ceiling reports a
non-terminal status, the polling loop stops with the timeout error,
whatever the initial consecutive-failure counter (remaining retry budget);
and no execution of the poll loop ever performs more than
TIMEOUT_MS / POLL_INTERVAL_MS = 30 polls, i.e. polling never continues
past the ceiling. -/
theorem claim6_pollTimeout (env : Nat → PollOutcome) (dur : Nat → Nat) (c0 : Nat)
    (henv : ∀ j, isNonTerminalPoll (env j) = true) :
    (pollGo env dur 31 0 0 c0).outcome = Except.error timeoutMsg ∧
    ∀ (env2 : Nat → PollOutcome) (dur2 : Nat → Nat) (c : Nat),
      (pollGo env2 dur2 31 0 0 c).polls ≤ 30 := by
  constructor
  · exact pollGo_timeout env dur henv 31 0 0 c0
  · intro env2 dur2 c
    have h := pollGo_polls_le env2 dur2 31 0 0 c 30 (by decide)
    simpa using h

theorem claim6_witness :
    (pollGo wGeneratingEnv zeroDur 31 0 0 0).outcome = Except.error timeoutMsg ∧
    (pollGo wGeneratingEnv zeroDur 31 0 0 0).polls ≤ 30 := by
  have h := claim6_pollTimeout wGeneratingEnv zeroDur 0 (fun _ => rfl)
  exact ⟨h.1, h.2 wGeneratingEnv zeroDur 0⟩

/-- Claim C7: a client error (HTTP status 400-499) on the first attempt of
the scene call or of the video create call is propagated immediately: one
single attempt, no backoff delay, and the error carries the 4xx message. -/
theorem claim7_clientErrorAbortsImmediately
    (envS : Nat → SceneAttempt) (envC : Nat → CreateAttempt)
    (sS sC : Nat) (tS tC : String)
    (jS : Except String SceneData) (jC : Except String CreateData)
    (hS4 : 400 ≤ sS) (hS4b : sS ≤ 499) (hC4 : 400 ≤ sC) (hC4b : sC ≤ 499)
    (hES : envS 0 = SceneAttempt.response sS tS jS)
    (hEC : envC 0 = CreateAttempt.response sC tC jC) :
    generateSceneRun envS =
      { attempts := 1, delays := [],
        outcome := Except.error ("NanoBanana API error (" ++ toString sS ++ "): " ++ tS) } ∧
    videoCreateRun envC =
      { attempts := 1, delays := [],
        outcome := Except.error ("Veo 3.1 create error (" ++ toString sC ++ "): " ++ tC) } := by
  constructor
  · show retryGo (fun i => sceneAttemptStep (envS i))
      "Scene generation failed after retries" 4 0 none [] = _
    exact retryGo_firstPermanent _ _ _
      (by rw [hES]; exact sceneStep_clientError sS tS jS hS4 hS4b)
  · show retryGo (fun i => createAttemptStep (envC i))
      "Video creation failed after retries" 4 0 none [] = _
    exact retryGo_firstPermanent _ _ _
      (by rw [hEC]; exact createStep_clientError sC tC jC hC4 hC4b)

theorem claim7_witness :
    (400 : Nat) ≤ 404 ∧ (404 : Nat) ≤ 499 ∧
    generateSceneRun wScene404Env =
      { attempts := 1, delays := [],
        outcome := Except.error "NanoBanana API error (404): Not Found" } ∧
    videoCreateRun wCreate400Env =
      { attempts := 1, delays := [],
        outcome := Except.error "Veo 3.1 create error (400): Bad Request" } := by
  have h := claim7_clientErrorAbortsImmediately wScene404Env wCreate400Env
    404 400 "Not Found" "Bad Request" (Except.error "nf") (Except.error "br")
    (by decide) (by decide) (by decide) (by decide) rfl rfl
  exact ⟨by decide, by decide, h.1, h.2⟩

/-- Claim C8: a poll response with status completed stops the polling loop
at that poll: with a video URL present the operation returns success with
that locator and the reported credits; with the URL missing the operation
fails with the no-URL error instead of being treated as still-pending. -/
theorem claim8_completedStopsPolling (env : Nat → PollOutcome) (dur : Nat → Nat)
    (fuel i elapsed c s : Nat) (text : String) (d : PollData)
    (hT : elapsed < TIMEOUT_MS) (hok : okStatus s)
    (hE : env i = PollOutcome.response s text (Except.ok d))
    (hS : d.status = some "completed") :
    pollGo env dur (fuel + 1) i elapsed c =
      { outcome :=
          match jsStr d.videoUrl with
          | some url => Except.ok (url, jsNat d.creditsUsed)
          | none => Except.error "Video completed but no URL found in response",
        polls := i + 1 } := by
  have h5 : ¬ 500 ≤ s := by
    have := hok.2
    omega
  have hstep : stepPoll (env i) c = PollStep.halt
      (match jsStr d.videoUrl with
       | some url => Except.ok (url, jsNat d.creditsUsed)
       | none => Except.error "Video completed but no URL found in response") := by
    rw [hE]
    cases hv : jsStr d.videoUrl with
    | some url => simp [stepPoll, h5, hok, hS, hv]
    | none =>
      simp [stepPoll, h5, hok, hS, hv]
      decide
  unfold pollGo
  rw [if_pos hT, hstep]

theorem claim8_witness :
    (0 : Nat) < TIMEOUT_MS ∧ okStatus 200 ∧
    pollGo wCompletedEnv zeroDur 31 0 0 0 =
      { outcome := Except.ok ("https://example/video.mp4", 250), polls := 1 } := by
  have h := claim8_completedStopsPolling wCompletedEnv zeroDur 30 0 0 0 200 ""
    completedPollData (by decide) (by decide) rfl rfl
  exact ⟨by decide, by decide, h⟩

/-- Claim C9: a poll response with status failed or error stops the polling
loop at that poll and raises the permanent business failure, whose message
surfaces the remote-supplied error message when present (and the fallback
Unknown error otherwise); the failure is raised regardless of the
remaining consecutive-failure tolerance. -/
theorem claim9_failedStatusPermanent (env : Nat → PollOutcome) (dur : Nat → Nat)
    (fuel i elapsed c s : Nat) (text st : String) (d : PollData)
    (hT : elapsed < TIMEOUT_MS) (hok : okStatus s)
    (hE : env i = PollOutcome.response s text (Except.ok d))
    (hS : d.status = some st) (hst : st = "failed" ∨ st = "error") :
    pollGo env dur (fuel + 1) i elapsed c =
      { outcome := Except.error
          ("Video generation failed: " ++ (jsStr d.errorMessage).getD "Unknown error"),
        polls := i + 1 } := by
  have h5 : ¬ 500 ≤ s := by
    have := hok.2
    omega
  have hne : ¬ st = "completed" := by
    cases hst with
    | inl h => rw [h]; decide
    | inr h => rw [h]; decide
  have hstep : stepPoll (env i) c = PollStep.halt
      (Except.error
        ("Video generation failed: " ++ (jsStr d.errorMessage).getD "Unknown error")) := by
    rw [hE]
    simp only [stepPoll]
    rw [if_neg h5, if_neg (not_not_intro hok)]
    simp only [hS]
    rw [if_neg hne, if_pos hst]
    exact pollCatch_failed _ _
      (strContains_app "Video generation failed: " _ "failed" (by decide))
  unfold pollGo
  rw [if_pos hT, hstep]

theorem claim9_witness :
    (0 : Nat) < TIMEOUT_MS ∧ okStatus 200 ∧ ("failed" = "failed" ∨ "failed" = "error") ∧
    pollGo wFailedEnv zeroDur 31 0 0 0 =
      { outcome := Except.error "Video generation failed: Quota exceeded", polls := 1 } := by
  have h := claim9_failedStatusPermanent wFailedEnv zeroDur 30 0 0 0 200 "" "failed"
    failedPollData (by decide) (by decide) rfl rfl (Or.inl rfl)
  exact ⟨by decide, by decide, Or.inl rfl, h⟩

/-- Claim C10: when a generation endpoint call succeeds remotely but
reports zero credits used, the server performs no ledger update (the
running total is unchanged and the credits file is not rewritten), while
the HTTP response still reports success, the zero charge, and the
unchanged remaining balance; and absent usage metadata extracts to a zero
charge. -/
theorem claim10_zeroChargeNoLedgerWrite (total cu : Nat) (img vid gid now : String)
    (hcu : cu = 0) :
    sceneEndpointSuccess total img cu now =
      ((total, none),
       { success := true, imageUrl := img, creditsUsed := cu,
         creditsRemaining := (STARTING_CREDITS : Int) - (total : Int) }) ∧
    videoEndpointSuccess total vid gid cu now =
      ((total, none),
       { success := true, videoUrl := vid, generationId := gid, creditsUsed := cu,
         creditsRemaining := (STARTING_CREDITS : Int) - (total : Int) }) ∧
    jsNat none = 0 := by
  subst hcu
  refine ⟨?_, ?_, rfl⟩
  · simp [sceneEndpointSuccess]
  · simp [videoEndpointSuccess]

theorem claim10_witness :
    (0 : Nat) = 0 ∧
    sceneEndpointSuccess 7 "https://img" 0 "t" =
      ((7, none),
       { success := true, imageUrl := "https://img", creditsUsed := 0,
         creditsRemaining := (STARTING_CREDITS : Int) - ((7 : Nat) : Int) }) ∧
    videoEndpointSuccess 7 "https://v" "gid" 0 "t" =
      ((7, none),
       { success := true, videoUrl := "https://v", generationId := "gid",
         creditsUsed := 0,
         creditsRemaining := (STARTING_CREDITS : Int) - ((7 : Nat) : Int) }) := by
  have h := claim10_zeroChargeNoLedgerWrite 7 0 "https://img" "https://v" "gid" "t" rfl
  exact ⟨rfl, h.1, h.2.1⟩

end DuoCast
